import Mathlib

/-
Verification development for the strava_connect integration
(custom_components/ha_strava).  The Python modules api.py, gear.py,
camera.py and __init__.py are shallowly embedded as executable Lean
definitions, and the behavioural claims about them are settled as
theorems below the definitions.
-/

namespace StravaConnect

/-! ## Model of Python runtime values

Python/JSON values are modelled by the inductive `PyVal`.  Floats are
modelled as exact rationals; the special values produced by parsing
("inf", "nan") are modelled in `PyFloat`.  Rounding of huge integers to
binary floating point is not modelled.
-/

/-- Model of a Python (JSON-like) value. -/
inductive PyVal where
  | none
  | bool (b : Bool)
  | int (n : Int)
  | float (q : Rat)
  | str (s : String)
  | list (xs : List PyVal)
  | dict (fields : List (String × PyVal))

/-- Python truthiness (`bool(v)`). -/
def pyTruthy : PyVal → Bool
  | .none => false
  | .bool b => b
  | .int n => n != 0
  | .float q => q != 0
  | .str s => s != ""
  | .list xs => !xs.isEmpty
  | .dict fields => !fields.isEmpty

/-- Python `str(v)` for the value shapes the embedded code converts.
Container and float reprs are not needed by any claim and are given
placeholder renderings. -/
def pyStr : PyVal → String
  | .none => "None"
  | .bool true => "True"
  | .bool false => "False"
  | .int n => toString n
  | .float q => toString q
  | .str s => s
  | .list _ => "<list>"
  | .dict _ => "<dict>"

/-- Python `d.get(k)` on a dict modelled as an association list:
the value under the key, or `None` when absent. -/
def pyGet (fields : List (String × PyVal)) (k : String) : PyVal :=
  match fields.find? (fun p => p.1 == k) with
  | some p => p.2
  | Option.none => .none

/-- Result of Python `float(str)`: a finite value (exact rational),
an infinity, or NaN. -/
inductive PyFloat where
  | finite (q : Rat)
  | inf
  | negInf
  | nan

/-- ASCII whitespace stripped by Python number conversions. -/
def isPySpace (c : Char) : Bool :=
  c == ' ' || c == '\t' || c == '\n' || c == '\r' || c == '\x0b' || c == '\x0c'

/-- Strip leading and trailing whitespace from a character list. -/
def trimChars (cs : List Char) : List Char :=
  ((cs.dropWhile isPySpace).reverse.dropWhile isPySpace).reverse

/-- Split an optional leading sign; returns (isNegative, rest). -/
def splitSign : List Char → Bool × List Char
  | '+' :: r => (false, r)
  | '-' :: r => (true, r)
  | r => (false, r)

/-- Lower-case an ASCII letter (Python float parsing is case-insensitive
on the keywords "inf", "infinity", "nan" and on the exponent marker). -/
def lowerChar (c : Char) : Char :=
  if 'A' ≤ c ∧ c ≤ 'Z' then Char.ofNat (c.toNat + 32) else c

/-- Check Python's underscore rule for numeric literals accepted by
`int()`/`float()`: every underscore must sit between two digits. -/
def underscoresOkAux (prev : Char) : List Char → Bool
  | [] => true
  | c :: rest =>
    if c == '_' then
      (prev.isDigit && (match rest with
        | d :: _ => d.isDigit
        | [] => false)) && underscoresOkAux c rest
    else underscoresOkAux c rest

/-- Underscore placement check for a whole token (may not start with one). -/
def underscoresOk : List Char → Bool
  | [] => true
  | c :: rest => if c == '_' then false else underscoresOkAux c rest

/-- Remove underscores from a digit group. -/
def stripU (cs : List Char) : List Char := cs.filter (fun c => c != '_')

/-- Numeric value of a list of ASCII digits. -/
def digitsToNat (cs : List Char) : Nat :=
  cs.foldl (fun acc c => acc * 10 + (c.toNat - 48)) 0

/-- Parse the decimal part of a Python float literal (no sign, no
underscores, already lower-cased): digits, optional fraction, optional
exponent.  Returns the exact rational value. -/
def parseDecimal (cs : List Char) : Option Rat :=
  let intPart := cs.takeWhile Char.isDigit
  let rest1 := cs.dropWhile Char.isDigit
  let fracAndRest :=
    match rest1 with
    | '.' :: r2 => some (r2.takeWhile Char.isDigit, r2.dropWhile Char.isDigit)
    | _ => Option.none
  let fracPart := match fracAndRest with
    | some p => p.1
    | Option.none => []
  let rest2 := match fracAndRest with
    | some p => p.2
    | Option.none => rest1
  if intPart.isEmpty && fracPart.isEmpty then Option.none
  else
    let mantissa : Rat :=
      (digitsToNat intPart : Rat) + (digitsToNat fracPart : Rat) / (10 : Rat) ^ fracPart.length
    match rest2 with
    | [] => some mantissa
    | 'e' :: r3 =>
      let se := splitSign r3
      let expDigits := se.2.takeWhile Char.isDigit
      let rest3 := se.2.dropWhile Char.isDigit
      if expDigits.isEmpty || !rest3.isEmpty then Option.none
      else
        let e : Int := if se.1 then -(digitsToNat expDigits : Int) else (digitsToNat expDigits : Int)
        some (mantissa * (10 : Rat) ^ e)
    | _ => Option.none

/-- Model of Python `float(s)` on a string: strip whitespace, optional
sign, the keywords inf/infinity/nan (case-insensitive), or a decimal
literal with Python's underscore rule.  A finite result whose magnitude
reaches 2^1024 overflows to an infinity, as in binary64 (rounding at the
exact overflow boundary is not modelled). -/
def pyParseFloat (s : String) : Option PyFloat :=
  let low := (trimChars s.data).map lowerChar
  let sb := splitSign low
  let neg := sb.1
  let body := sb.2
  if body = "inf".data ∨ body = "infinity".data then
    some (if neg then .negInf else .inf)
  else if body = "nan".data then some .nan
  else if underscoresOk body then
    match parseDecimal (stripU body) with
    | some q =>
      if q ≥ (2 : Rat) ^ (1024 : Nat) then some (if neg then .negInf else .inf)
      else some (.finite (if neg then -q else q))
    | Option.none => Option.none
  else Option.none

/-- Truncation toward zero, the behaviour of Python `int()` on a finite
float. -/
def ratTrunc (q : Rat) : Int := Int.tdiv q.num (q.den : Int)

/-- Model of Python `int(s)` on a string: strip whitespace, optional
sign, ASCII digits with Python's underscore rule. -/
def pyParseInt (cs : List Char) : Option Int :=
  let t := trimChars cs
  let sb := splitSign t
  let body := sb.2
  if body.isEmpty then Option.none
  else if !(body.all (fun c => c.isDigit || c == '_')) then Option.none
  else if !underscoresOk body then Option.none
  else
    let n : Int := (digitsToNat (stripU body) : Int)
    some (if sb.1 then -n else n)

/-! ## gear.py -/

/-- Base URL for gear links (`GEAR_BASE_URL` in gear.py). -/
def GEAR_BASE_URL : String := "https://www.strava.com/gear"

/-- Embedding of `_safe_int(value)` from gear.py: `int(float(value))`
guarded by `except (TypeError, ValueError): return 0`, with an explicit
`None` check first.  `int()` applied to an infinite float raises
OverflowError, which that handler does not catch; the uncaught exception
is modelled as `Except.error`. -/
def safe_int : PyVal → Except Unit Int
  | .none => .ok 0
  | .bool b => .ok (if b then 1 else 0)
  | .int n => .ok n
  | .float q => .ok (ratTrunc q)
  | .str s =>
    match pyParseFloat s with
    | some (.finite q) => .ok (ratTrunc q)
    | some .inf => .error ()
    | some .negInf => .error ()
    | some .nan => .ok 0
    | Option.none => .ok 0
  | .list _ => .ok 0
  | .dict _ => .ok 0

/-- Normalized shoe payload: the fixed-key dict built by
`normalize_shoe`. -/
structure ShoeItem where
  id : PyVal
  name : PyVal
  brand : PyVal
  model : PyVal
  distance_m : Int
  retired : Bool
  primary : Bool
  strava_url : Option String

/-- Normalized bike payload: the fixed-key dict built by
`normalize_bike`. -/
structure BikeItem where
  id : PyVal
  name : PyVal
  brand : PyVal
  model : PyVal
  distance_m : Int
  primary : Bool
  retired : Bool
  frame_type : PyVal
  strava_url : Option String

/-- Embedding of `normalize_shoe(raw)` from gear.py.  `raw` is `None` or
a dict; `if not raw` also catches the empty dict.  The uncaught
OverflowError path of `_safe_int` propagates as `Except.error`. -/
def normalize_shoe (raw : Option (List (String × PyVal))) : Except Unit ShoeItem :=
  match raw with
  | Option.none =>
    .ok ⟨.none, .none, .none, .none, 0, false, false, Option.none⟩
  | some [] =>
    .ok ⟨.none, .none, .none, .none, 0, false, false, Option.none⟩
  | some fields => do
    let gear_id := pyGet fields "id"
    let dist ← safe_int (pyGet fields "distance")
    .ok ⟨gear_id, pyGet fields "name", pyGet fields "brand_name",
      pyGet fields "model_name", dist,
      pyTruthy (pyGet fields "retired"), pyTruthy (pyGet fields "primary"),
      if pyTruthy gear_id then some (GEAR_BASE_URL ++ "/" ++ pyStr gear_id)
      else Option.none⟩

/-- Embedding of `normalize_bike(raw)` from gear.py. -/
def normalize_bike (raw : Option (List (String × PyVal))) : Except Unit BikeItem :=
  match raw with
  | Option.none =>
    .ok ⟨.none, .none, .none, .none, 0, false, false, .none, Option.none⟩
  | some [] =>
    .ok ⟨.none, .none, .none, .none, 0, false, false, .none, Option.none⟩
  | some fields => do
    let gear_id := pyGet fields "id"
    let dist ← safe_int (pyGet fields "distance")
    .ok ⟨gear_id, pyGet fields "name", pyGet fields "brand_name",
      pyGet fields "model_name", dist,
      pyTruthy (pyGet fields "primary"), pyTruthy (pyGet fields "retired"),
      pyGet fields "frame_type",
      if pyTruthy gear_id then some (GEAR_BASE_URL ++ "/" ++ pyStr gear_id)
      else Option.none⟩

/-- Truthiness of an optional string selection (`if pod1_selection`). -/
def strTruthy : Option String → Bool
  | Option.none => false
  | some s => s != ""

/-- Embedding of `enforce_mutual_exclusivity(pod1_selection,
pod2_selection)` from gear.py. -/
def enforce_mutual_exclusivity (pod1_selection pod2_selection : Option String) :
    Option String × Option String :=
  if strTruthy pod1_selection && strTruthy pod2_selection &&
      (pod1_selection == pod2_selection) then
    (pod1_selection, Option.none)
  else (pod1_selection, pod2_selection)

/-! ## api.py -/

/-- Structured representation of Strava rate-limit headers
(`RateLimitInfo` in api.py). -/
structure RateLimitInfo where
  short_limit : Option Int
  long_limit : Option Int
  short_usage : Option Int
  long_usage : Option Int
deriving DecidableEq

/-- Embedding of the property `RateLimitInfo.nearing_limit`: False when
`short_limit in (None, 0)` or `short_usage is None`, otherwise
`short_usage / short_limit >= 0.9` with exact rational division in place
of binary64 division. -/
def nearing_limit (r : RateLimitInfo) : Bool :=
  match r.short_limit, r.short_usage with
  | Option.none, _ => false
  | some _, Option.none => false
  | some l, some u =>
    if l = 0 then false
    else decide ((u : Rat) / (l : Rat) ≥ 9 / 10)

/-- Lookup of a string key in a string-valued mapping (`headers.get(k)`
and `request.query.get(k)`): the value, or `None` when absent. -/
def strGet (pairs : List (String × String)) (k : String) : Option String :=
  (pairs.find? (fun p => p.1 == k)).map (fun p => p.2)

/-- Python `s.split(",")` on a character list. -/
def splitOnComma : List Char → List (List Char)
  | [] => [[]]
  | ',' :: r => [] :: splitOnComma r
  | c :: r =>
    match splitOnComma r with
    | h :: t => (c :: h) :: t
    | [] => [[c]]

/-- Embedding of `_parse_header_pair(header_value)` from api.py: falsy
input gives `(None, None)`; otherwise split on "," into exactly two
parts and parse both as ints, any failure giving `(None, None)`. -/
def parse_header_pair (header_value : Option String) : Option Int × Option Int :=
  match header_value with
  | Option.none => (Option.none, Option.none)
  | some s =>
    if s = "" then (Option.none, Option.none)
    else
      match splitOnComma s.data with
      | [a, b] =>
        match pyParseInt a, pyParseInt b with
        | some x, some y => (some x, some y)
        | _, _ => (Option.none, Option.none)
      | _ => (Option.none, Option.none)

/-- Embedding of `_extract_rate_limit(headers)` from api.py. -/
def extract_rate_limit (headers : List (String × String)) : RateLimitInfo :=
  let lim := parse_header_pair (strGet headers "X-RateLimit-Limit")
  let usage := parse_header_pair (strGet headers "X-RateLimit-Usage")
  { short_limit := lim.1, long_limit := lim.2,
    short_usage := usage.1, long_usage := usage.2 }

/-- An HTTP response as seen by `StravaClient._request` after
`async_request` returned: status, headers, body text, and the outcome of
`response.json()` (`none` models aiohttp's ContentTypeError on an
empty/absent body). -/
structure HttpResponse where
  status : Nat
  headers : List (String × String)
  body_text : String
  json_body : Option PyVal

/-- Outcome of `StravaClient._request`: the returned JSON payload or one
of the typed Strava errors raised by the status-code mapping. -/
inductive ApiResult where
  | ok (payload : PyVal)
  | rate_limit_error (info : RateLimitInfo)
  | unauthorized_error
  | not_found_error
  | api_error (status : Nat) (body : String)

/-- Client state carried across requests (`_last_rate_limit`). -/
structure ClientState where
  last_rate_limit : Option RateLimitInfo

/-- Embedding of the response-handling part of `StravaClient._request`
(api.py): record the rate-limit info parsed from the headers, then map
the status code in order 429 / 401,403 / 404 / >=400 / success, where an
empty body parses to an empty dict.  Transport failures before a
response is received are outside this function, as in the claim. -/
def strava_request (resp : HttpResponse) (_st : ClientState) :
    ClientState × ApiResult :=
  let info := extract_rate_limit resp.headers
  let st2 : ClientState := { last_rate_limit := some info }
  let result :=
    if resp.status = 429 then ApiResult.rate_limit_error info
    else if resp.status = 401 ∨ resp.status = 403 then ApiResult.unauthorized_error
    else if resp.status = 404 then ApiResult.not_found_error
    else if resp.status ≥ 400 then ApiResult.api_error resp.status resp.body_text
    else
      match resp.json_body with
      | some j => ApiResult.ok j
      | Option.none => ApiResult.ok (.dict [])
  (st2, result)

/-- An HTTP request issued through the OAuth2 session. -/
inductive ClientCall where
  | http (method : String) (path : String) (json_data : Option PyVal)

/-- Trace of one `async_update_activity_gear` invocation: the session
requests it issued and whether it raised `ValueError` locally. -/
structure UpdateGearRun where
  calls : List ClientCall
  value_error : Bool

/-- Embedding of `StravaClient.async_update_activity_gear(activity_id,
gear_id)` up to the point the request is handed to the session: an empty
`gear_id` raises `ValueError` before any call, otherwise exactly one PUT
with payload containing only `gear_id` is issued. -/
def async_update_activity_gear (activity_id gear_id : String) : UpdateGearRun :=
  if gear_id = "" then { calls := [], value_error := true }
  else
    { calls := [.http "PUT" ("/activities/" ++ activity_id)
        (some (.dict [("gear_id", .str gear_id)]))],
      value_error := false }

/-! ## __init__.py: webhook HTTP endpoint -/

/-- Response of a webhook view handler.  `unhandled` models an exception
escaping the handler (the web framework then reports a server error, not
a 200). -/
inductive WebResponse where
  | json_resp (body : List (String × PyVal))
  | empty_resp (status : Nat)
  | unhandled (exc : String)

/-- Embedding of `StravaWebhookView.get`: echo a truthy `hub.challenge`
query value as JSON, otherwise plain 200. -/
def webhook_get (query : List (String × String)) : WebResponse :=
  match strGet query "hub.challenge" with
  | some c => if c ≠ "" then .json_resp [("hub.challenge", .str c)] else .empty_resp 200
  | Option.none => .empty_resp 200

/-- Embedding of `StravaWebhookView.post`.  Input: the outcome of
`request.json()` (`Except.error` models `json.JSONDecodeError`) and the
config entries as (unique_id, entry_id) pairs.  Output: the response and
the entry ids for which a refresh task was created.  A non-dict JSON
body makes `data.get("owner_id")` raise AttributeError, which the
handler does not catch. -/
def webhook_post (body : Except Unit PyVal) (entries : List (String × String)) :
    WebResponse × List String :=
  match body with
  | .error _ => (.empty_resp 400, [])
  | .ok v =>
    match v with
    | .dict d =>
      let owner := pyGet d "owner_id"
      if !pyTruthy owner then (.empty_resp 200, [])
      else
        match entries.find? (fun e => e.1 == pyStr owner) with
        | some e => (.empty_resp 200, [e.2])
        | Option.none => (.empty_resp 200, [])
    | _ => (.unhandled "AttributeError", [])

/-! ## __init__.py: webhook subscription reconciler -/

/-- A remote webhook subscription as listed by the provider. -/
structure Subscription where
  id : Nat
  callback_url : String
deriving DecidableEq

/-- Outcome of one DELETE on a subscription: success, an HTTP error
status (`aiohttp.ClientResponseError` from `raise_for_status`), or a
connection-level `aiohttp.ClientError`. -/
inductive DeleteOutcome where
  | ok
  | resp_error (status : Nat)
  | conn_error
deriving DecidableEq

/-- Trace of one run of the remote-subscription phase of
`renew_webhook_subscription`: the delete calls issued, how each failure
was classified (404 debug-logged as already gone, others warned and
skipped), the create calls issued, and the subscription id persisted
into the config entry. -/
structure ReconcileRun where
  delete_calls : List Nat
  delete_already_gone : List Nat
  delete_warned : List Nat
  create_calls : List String
  persisted_id : Option Nat
deriving DecidableEq

/-- Embedding of the remote-subscription phase of
`renew_webhook_subscription` (__init__.py), entered after the public URL
was resolved, the callback URL verified reachable, and the subscription
list fetched: delete every subscription whose callback_url differs from
the current one (a 404 is debug-logged, other failures are warned, and
the loop always continues); then, if any listed subscription already
matches the current callback URL, stop; otherwise issue one create call
and persist the returned id (`create_outcome = none` models a
ClientError on create, which is logged without persisting). -/
def renew_webhook_subscription (callback_url : String)
    (subscriptions : List Subscription) (delete_outcome : Nat → DeleteOutcome)
    (create_outcome : Option Nat) : ReconcileRun :=
  let stale := subscriptions.filter (fun s => s.callback_url ≠ callback_url)
  let deletes := stale.map (fun s => s.id)
  let gone := (stale.filter (fun s => delete_outcome s.id = .resp_error 404)).map (fun s => s.id)
  let warned := (stale.filter (fun s =>
    match delete_outcome s.id with
    | .ok => false
    | .resp_error st => st ≠ 404
    | .conn_error => true)).map (fun s => s.id)
  if subscriptions.any (fun s => s.callback_url = callback_url) then
    { delete_calls := deletes, delete_already_gone := gone,
      delete_warned := warned, create_calls := [], persisted_id := Option.none }
  else
    { delete_calls := deletes, delete_already_gone := gone,
      delete_warned := warned, create_calls := [callback_url],
      persisted_id := create_outcome }

/-! ## camera.py: image rotation cache

The constants `MAX_NB_ACTIVITIES` and `CONF_MAX_NB_IMAGES` live in
const.py, which is not part of the sources here; following the spec they
are the parameters `M` (most-recent activity window, 30) and `N` (image
cap).  The md5 content hash of a URL is the parameter `h`; the claims
hold for any collision-free hash.  Python dicts are modelled as
insertion-ordered association lists, and `sorted` by Mathlib's stable
`List.insertionSort`. -/

/-- An activity as used by `_update_urls` (`id` and `start_date`). -/
structure Activity where
  id : Int
  start_date : String
deriving DecidableEq

/-- An image entry from the coordinator data (`url`, `activity_id`,
`date`); `activity_id` is read with `.get`, so it may be absent. -/
structure ImgEntry where
  url : String
  activity_id : Option Int
  date : String
deriving DecidableEq

/-- Python dict assignment `d[k] = v` on an insertion-ordered
association list: replace in place, or append a new key. -/
def dictInsert (k : String) (v : ImgEntry) :
    List (String × ImgEntry) → List (String × ImgEntry)
  | [] => [(k, v)]
  | p :: rest => if p.1 = k then (p.1, v) :: rest else p :: dictInsert k v rest

/-- Python slice `l[-n:]`; for `n = 0` the slice `[-0:]` is the whole
list. -/
def takeLast {α : Type} (n : Nat) (l : List α) : List α :=
  if n = 0 then l else l.drop (l.length - n)

/-- Descending comparison on `start_date` used by
`sorted(activities, key=..., reverse=True)` (Python compares the date
strings; string order is by code point). -/
def actDescRel (a b : Activity) : Prop := b.start_date.data ≤ a.start_date.data

instance : DecidableRel actDescRel := fun a b => by
  unfold actDescRel; infer_instance

instance : IsTotal Activity actDescRel :=
  ⟨fun a b => le_total b.start_date.data a.start_date.data⟩

instance : IsTrans Activity actDescRel :=
  ⟨fun _ _ _ hab hbc => le_trans hbc hab⟩

/-- Ascending comparison on entry dates used by
`sorted(self._urls.items(), key=lambda item: item[1]["date"])`. -/
def dateRel (a b : String × ImgEntry) : Prop := a.2.date.data ≤ b.2.date.data

instance : DecidableRel dateRel := fun a b => by
  unfold dateRel; infer_instance

instance : IsTotal (String × ImgEntry) dateRel :=
  ⟨fun a b => le_total a.2.date.data b.2.date.data⟩

instance : IsTrans (String × ImgEntry) dateRel :=
  ⟨fun _ _ _ hab hbc => le_trans hab hbc⟩

/-- The most-recent-M activity id set of `_update_urls`: empty when
there are no activities, otherwise the ids of the first `M` activities
after a stable sort by `start_date` descending. -/
def recent_activity_ids (M : Nat) (activities : List Activity) : List Int :=
  if activities.isEmpty then []
  else ((List.insertionSort actDescRel activities).take M).map (fun a => a.id)

/-- State of the `UrlCam` entity: the URL dict and the rotation index. -/
structure UrlCamState where
  urls : List (String × ImgEntry)
  url_index : Nat
deriving DecidableEq

/-- One iteration of the merge loop of `_update_urls`: an incoming image
whose `activity_id` is in the recent set is written into the dict under
the content hash of its URL. -/
def merge_step (h : String → String) (recent : List Int)
    (d : List (String × ImgEntry)) (img : ImgEntry) : List (String × ImgEntry) :=
  match img.activity_id with
  | some aid => if recent.contains aid then dictInsert (h img.url) img d else d
  | Option.none => d

/-- The merge loop of `_update_urls` over all incoming images. -/
def update_merged (h : String → String) (M : Nat) (activities : List Activity)
    (images : List ImgEntry) (urls : List (String × ImgEntry)) :
    List (String × ImgEntry) :=
  images.foldl (merge_step h (recent_activity_ids M activities)) urls

/-- Embedding of `UrlCam._update_urls` for a coordinator snapshot with
activities and images: a falsy image list leaves the state untouched;
otherwise merge the qualifying images into the dict, sort it by date
ascending and keep the last `N` items.  The rotation index is not
touched. -/
def update_urls (h : String → String) (M N : Nat) (activities : List Activity)
    (images : List ImgEntry) (s : UrlCamState) : UrlCamState :=
  if images.isEmpty then s
  else
    { s with urls :=
        takeLast N (List.insertionSort dateRel
          (update_merged h M activities images s.urls)) }

/-- Embedding of `UrlCam.rotate_img`: advance the index modulo the dict
size; no-op when the dict is empty. -/
def rotate_img (s : UrlCamState) : UrlCamState :=
  if s.urls.isEmpty then s
  else { s with url_index := (s.url_index + 1) % s.urls.length }

/-- The fixed fallback image URL (`_DEFAULT_IMAGE_URL` in camera.py). -/
def DEFAULT_IMAGE_URL : String :=
  "https://upload.wikimedia.org/wikipedia/commons/thumb/1/15/No_image_available_600_x_450.svg/1280px-No_image_available_600_x_450.svg.png"

/-- Embedding of the `UrlCam.state` property:
`list(self._urls.values())[self._url_index]["url"]` with the fallback
URL on an empty dict.  An out-of-range index raises IndexError, modelled
by `none`. -/
def cam_state (s : UrlCamState) : Option String :=
  if s.urls.isEmpty then some DEFAULT_IMAGE_URL
  else (s.urls.map (fun p => p.2.url))[s.url_index]?

/-- Embedding of `_store_pickle_urls`: the persisted blob is the URL
dict. -/
def store_pickle_urls (s : UrlCamState) : List (String × ImgEntry) := s.urls

/-- Embedding of `setup_pickle_urls` on a fresh entity (`_urls = {}`,
`_url_index = 0` from `__init__`): load the persisted dict when the file
exists, keep the empty dict otherwise. -/
def setup_pickle_urls (blob : Option (List (String × ImgEntry))) : UrlCamState :=
  match blob with
  | some u => { urls := u, url_index := 0 }
  | Option.none => { urls := [], url_index := 0 }

/-- States of the image rotation cache reachable from a fresh setup by
coordinator updates, timer rotations, and restarts that reload the
persisted dict. -/
inductive ReachableCam (h : String → String) (M N : Nat) : UrlCamState → Prop where
  | init : ReachableCam h M N { urls := [], url_index := 0 }
  | restart (s : UrlCamState) : ReachableCam h M N s →
      ReachableCam h M N (setup_pickle_urls (some (store_pickle_urls s)))
  | update (s : UrlCamState) (activities : List Activity) (images : List ImgEntry) :
      ReachableCam h M N s → ReachableCam h M N (update_urls h M N activities images s)
  | rotate (s : UrlCamState) : ReachableCam h M N s → ReachableCam h M N (rotate_img s)

/-- Refinement reference for claim C6, following the spec's words:
nearingLimit is true iff shortLimit and shortUsage are both known,
shortLimit > 0, and shortUsage / shortLimit >= 0.9. -/
def spec_nearing_limit (r : RateLimitInfo) : Prop :=
  ∃ l u : Int, r.short_limit = some l ∧ r.short_usage = some u ∧ 0 < l ∧
    (u : Rat) / (l : Rat) ≥ 9 / 10

/-- Invariant of the image rotation cache: the dict respects the cap
(when the cap is positive), and the rotation index is in bounds unless
the dict is empty, in which case the index is 0. -/
def CamInv (N : Nat) (s : UrlCamState) : Prop :=
  (0 < N → s.urls.length ≤ N) ∧
    (s.url_index < s.urls.length ∨ (s.urls = [] ∧ s.url_index = 0))

/-! ## Theorems -/

/-- C1: for every API client call in which an HTTP response is received,
the client first overwrites its stored RateLimitInfo with the values
parsed from the X-RateLimit headers (even on error statuses; an
unparsable or absent header yields null for both of its fields), then
maps the status in order: 429 fails with RateLimitError carrying that
info, 401/403 with UnauthorizedError, 404 with NotFoundError, any other
status >= 400 with a generic ApiError, and otherwise the parsed JSON
body is returned, an empty/absent body being treated as an empty
object. -/
theorem C1_request_records_rate_limit_then_maps_status
    (resp : HttpResponse) (st : ClientState) :
    (strava_request resp st).1.last_rate_limit = some (extract_rate_limit resp.headers)
    ∧ (resp.status = 429 →
        (strava_request resp st).2 = ApiResult.rate_limit_error (extract_rate_limit resp.headers))
    ∧ (resp.status = 401 ∨ resp.status = 403 →
        (strava_request resp st).2 = ApiResult.unauthorized_error)
    ∧ (resp.status = 404 → (strava_request resp st).2 = ApiResult.not_found_error)
    ∧ (400 ≤ resp.status → resp.status ≠ 429 → resp.status ≠ 401 → resp.status ≠ 403 →
        resp.status ≠ 404 →
        (strava_request resp st).2 = ApiResult.api_error resp.status resp.body_text)
    ∧ (resp.status < 400 → ∀ j : PyVal, resp.json_body = some j →
        (strava_request resp st).2 = ApiResult.ok j)
    ∧ (resp.status < 400 → resp.json_body = Option.none →
        (strava_request resp st).2 = ApiResult.ok (PyVal.dict []))
    ∧ parse_header_pair Option.none = (Option.none, Option.none)
    ∧ (∀ s : String, parse_header_pair (some s) = (Option.none, Option.none)
        ∨ ∃ a b : Int, parse_header_pair (some s) = (some a, some b)) := by
  refine ⟨rfl, ?_, ?_, ?_, ?_, ?_, ?_, rfl, ?_⟩
  · intro h1
    simp [strava_request, h1]
  · rintro (h1 | h1) <;> simp [strava_request, h1]
  · intro h1
    simp [strava_request, h1]
  · intro h1 h2 h3 h4 h5
    simp [strava_request, h1, h2, h3, h4, h5]
  · intro h1 j hj
    simp [strava_request, hj, show resp.status ≠ 429 by omega,
      show resp.status ≠ 401 by omega, show resp.status ≠ 403 by omega,
      show resp.status ≠ 404 by omega, show ¬ resp.status ≥ 400 by omega]
  · intro h1 hj
    simp [strava_request, hj, show resp.status ≠ 429 by omega,
      show resp.status ≠ 401 by omega, show resp.status ≠ 403 by omega,
      show resp.status ≠ 404 by omega, show ¬ resp.status ≥ 400 by omega]
  · intro s
    by_cases hs : s = ""
    · left
      simp [parse_header_pair, hs]
    · simp only [parse_header_pair, if_neg hs]
      split
      · split
        · right
          exact ⟨_, _, rfl⟩
        · left
          rfl
      · left
        rfl

/-- Witness for C1 at a concrete 200 response and a concrete 503
response. -/
theorem C1_witness :
    (strava_request ⟨200, [("X-RateLimit-Limit", "600,30000")], "", some (PyVal.int 7)⟩
        ⟨Option.none⟩).2 = ApiResult.ok (PyVal.int 7)
    ∧ (strava_request ⟨503, [], "oops", Option.none⟩ ⟨Option.none⟩).2 =
        ApiResult.api_error 503 "oops" :=
  ⟨(C1_request_records_rate_limit_then_maps_status
      ⟨200, [("X-RateLimit-Limit", "600,30000")], "", some (PyVal.int 7)⟩
      ⟨Option.none⟩).2.2.2.2.2.1 (by decide) (PyVal.int 7) rfl,
   (C1_request_records_rate_limit_then_maps_status
      ⟨503, [], "oops", Option.none⟩ ⟨Option.none⟩).2.2.2.2.1
      (by decide) (by decide) (by decide) (by decide) (by decide)⟩

/-- C5: for every activityId, updateActivityGear with an empty gearId
fails locally with a validation error and performs zero HTTP calls,
while a non-empty gearId issues exactly one PUT whose JSON payload is
exactly the single pair gear_id. -/
theorem C5_update_gear_validation_and_payload (activity_id gear_id : String) :
    (gear_id = "" →
      async_update_activity_gear activity_id gear_id = ⟨[], true⟩)
    ∧ (gear_id ≠ "" →
      async_update_activity_gear activity_id gear_id =
        ⟨[ClientCall.http "PUT" ("/activities/" ++ activity_id)
            (some (PyVal.dict [("gear_id", PyVal.str gear_id)]))], false⟩) := by
  constructor <;> intro h <;> simp [async_update_activity_gear, h]

/-- Witness for C5 at a concrete empty and non-empty gear id. -/
theorem C5_witness :
    async_update_activity_gear "123" "" = ⟨[], true⟩
    ∧ async_update_activity_gear "123" "shoe-1" =
        ⟨[ClientCall.http "PUT" ("/activities/" ++ "123")
            (some (PyVal.dict [("gear_id", PyVal.str "shoe-1")]))], false⟩ :=
  ⟨(C5_update_gear_validation_and_payload "123" "").1 rfl,
   (C5_update_gear_validation_and_payload "123" "shoe-1").2 (by decide)⟩

/-- C6 counterexample: the claim quantifies over every RateLimitInfo
value and requires nearingLimit to hold only when shortLimit > 0, but
the code only excludes shortLimit in (None, 0); at shortLimit = -1 and
shortUsage = -1 the implemented nearing_limit is true while the spec's
predicate is false. -/
theorem C6_counterexample :
    nearing_limit ⟨some (-1), Option.none, some (-1), Option.none⟩ = true
    ∧ ¬ spec_nearing_limit ⟨some (-1), Option.none, some (-1), Option.none⟩ := by
  constructor
  · simp only [nearing_limit]
    rw [if_neg (by norm_num), decide_eq_true_eq]
    norm_num
  · rintro ⟨l, u, hl, _, hpos, _⟩
    have : l = -1 := by
      simpa using hl.symm
    omega

/-- C6 amended: nearingLimit is true iff shortLimit and shortUsage are
both known, shortLimit is nonzero, and shortUsage / shortLimit >= 0.9;
and a 429 response with headers X-RateLimit-Limit "600,30000" and
X-RateLimit-Usage "600,25000" yields a RateLimitError whose
RateLimitInfo has shortUsage = shortLimit = 600 (ratio 1.0) and
nearingLimit true. -/
theorem C6_amended_nearing_limit (r : RateLimitInfo) (st : ClientState) :
    (nearing_limit r = true ↔
      ∃ l u : Int, r.short_limit = some l ∧ r.short_usage = some u ∧ l ≠ 0 ∧
        (u : Rat) / (l : Rat) ≥ 9 / 10)
    ∧ (strava_request
        ⟨429, [("X-RateLimit-Limit", "600,30000"), ("X-RateLimit-Usage", "600,25000")],
          "", Option.none⟩ st).2 =
      ApiResult.rate_limit_error ⟨some 600, some 30000, some 600, some 25000⟩
    ∧ nearing_limit ⟨some 600, some 30000, some 600, some 25000⟩ = true
    ∧ ((600 : Rat) / (600 : Rat) = 1) := by
  refine ⟨?_, ?_, ?_, by norm_num⟩
  · rcases r with ⟨sl, ll, su, lu⟩
    cases sl with
    | none => simp [nearing_limit]
    | some l =>
      cases su with
      | none => simp [nearing_limit]
      | some u =>
        by_cases hl : l = 0
        · simp [nearing_limit, hl]
        · simp only [nearing_limit, if_neg hl, decide_eq_true_eq]
          simp [hl]
  · have hextract : extract_rate_limit
        [("X-RateLimit-Limit", "600,30000"), ("X-RateLimit-Usage", "600,25000")] =
        ⟨some 600, some 30000, some 600, some 25000⟩ := by decide
    simp [strava_request, hextract]
  · simp only [nearing_limit]
    rw [if_neg (by norm_num), decide_eq_true_eq]
    norm_num

/-- Witness for C6 amended at the concrete 429 rate-limit info. -/
theorem C6_witness :
    ∃ l u : Int,
      (⟨some 600, some 30000, some 600, some 25000⟩ : RateLimitInfo).short_limit = some l
      ∧ (⟨some 600, some 30000, some 600, some 25000⟩ : RateLimitInfo).short_usage = some u
      ∧ l ≠ 0 ∧ (u : Rat) / (l : Rat) ≥ 9 / 10 :=
  ((C6_amended_nearing_limit ⟨some 600, some 30000, some 600, some 25000⟩
      ⟨Option.none⟩).1).mp
    ((C6_amended_nearing_limit ⟨some 600, some 30000, some 600, some 25000⟩
      ⟨Option.none⟩).2.2.1)

/-- C7: the claim says normalizeShoe/normalizeBike are total and never
fail, but a distance field whose string parses to an infinite float
makes `int(float(value))` raise OverflowError, which the
`except (TypeError, ValueError)` handler in `_safe_int` does not catch;
the normalizers do return distance 0 for absent or unparsable
distances. -/
theorem C7_overflow_escapes_safe_int :
    normalize_shoe (some [("distance", PyVal.str "inf")]) = .error ()
    ∧ normalize_bike (some [("distance", PyVal.str "inf")]) = .error ()
    ∧ safe_int (PyVal.str "inf") = .error ()
    ∧ normalize_shoe (some [("distance", PyVal.str "not-a-number")]) =
        .ok ⟨.none, .none, .none, .none, 0, false, false, Option.none⟩
    ∧ normalize_shoe Option.none =
        .ok ⟨.none, .none, .none, .none, 0, false, false, Option.none⟩ :=
  ⟨rfl, rfl, rfl, rfl, rfl⟩

/-- C8 counterexample: the claim says strava_url is non-null iff id is
non-null, but `if gear_id` uses truthiness: a raw payload with the
non-null falsy id "" yields id = "" with strava_url = None. -/
theorem C8_counterexample :
    normalize_shoe (some [("id", PyVal.str "")]) =
      .ok ⟨PyVal.str "", .none, .none, .none, 0, false, false, Option.none⟩
    ∧ PyVal.str "" ≠ PyVal.none :=
  ⟨rfl, fun h => PyVal.noConfusion h⟩

/-- C8 amended: for every gear item produced by normalize_shoe or
normalize_bike, strava_url is non-null iff the item's id is truthy
(non-null and non-empty/non-zero). -/
theorem C8_amended_url_iff_truthy_id (raw : Option (List (String × PyVal))) :
    (∀ g : ShoeItem, normalize_shoe raw = .ok g →
      (g.strava_url ≠ Option.none ↔ pyTruthy g.id = true))
    ∧ (∀ g : BikeItem, normalize_bike raw = .ok g →
      (g.strava_url ≠ Option.none ↔ pyTruthy g.id = true)) := by
  constructor
  · intro g hg
    match raw with
    | Option.none =>
      cases hg
      simp [pyTruthy]
    | some [] =>
      cases hg
      simp [pyTruthy]
    | some (f :: fs) =>
      simp only [normalize_shoe] at hg
      cases hsi : safe_int (pyGet (f :: fs) "distance") with
      | error e =>
        rw [hsi] at hg
        cases hg
      | ok dist =>
        rw [hsi] at hg
        cases hg
        by_cases ht : pyTruthy (pyGet (f :: fs) "id") = true
        · simp [ht]
        · simp [ht]
  · intro g hg
    match raw with
    | Option.none =>
      cases hg
      simp [pyTruthy]
    | some [] =>
      cases hg
      simp [pyTruthy]
    | some (f :: fs) =>
      simp only [normalize_bike] at hg
      cases hsi : safe_int (pyGet (f :: fs) "distance") with
      | error e =>
        rw [hsi] at hg
        cases hg
      | ok dist =>
        rw [hsi] at hg
        cases hg
        by_cases ht : pyTruthy (pyGet (f :: fs) "id") = true
        · simp [ht]
        · simp [ht]

/-- Witness for C8 amended at a concrete truthy id. -/
theorem C8_witness :
    some (GEAR_BASE_URL ++ "/" ++ "g1") ≠ Option.none ↔
      pyTruthy (PyVal.str "g1") = true :=
  (C8_amended_url_iff_truthy_id (some [("id", PyVal.str "g1")])).1
    ⟨PyVal.str "g1", .none, .none, .none, 0, false, false,
      some (GEAR_BASE_URL ++ "/" ++ "g1")⟩ rfl

/-- C9: enforceMutualExclusivity clears the second selection when both
are the same non-empty value, and is the identity on any pair of
distinct selections. -/
theorem C9_mutual_exclusivity :
    (∀ x : String, x ≠ "" →
      enforce_mutual_exclusivity (some x) (some x) = (some x, Option.none))
    ∧ (∀ a b : Option String, a ≠ b → enforce_mutual_exclusivity a b = (a, b)) := by
  constructor
  · intro x hx
    simp [enforce_mutual_exclusivity, strTruthy, hx]
  · intro a b hab
    have hbeq : (a == b) = false := by
      simp [hab]
    simp [enforce_mutual_exclusivity, hbeq]

/-- Witness for C9 at concrete selections. -/
theorem C9_witness :
    enforce_mutual_exclusivity (some "Daily Trainer") (some "Daily Trainer") =
      (some "Daily Trainer", Option.none)
    ∧ enforce_mutual_exclusivity (some "Daily Trainer") (some "Tempo Shoe") =
      (some "Daily Trainer", some "Tempo Shoe") :=
  ⟨C9_mutual_exclusivity.1 "Daily Trainer" (by decide),
   C9_mutual_exclusivity.2 (some "Daily Trainer") (some "Tempo Shoe") (by decide)⟩

/-- C10 counterexample: a GET carrying hub.challenge with the empty
value is answered with a plain 200 rather than the JSON echo (the code
tests truthiness, not presence), and a POST whose body is well-formed
non-object JSON (here the empty array) raises an uncaught
AttributeError instead of being answered with 200. -/
theorem C10_counterexample :
    webhook_get [("hub.challenge", "")] = WebResponse.empty_resp 200
    ∧ WebResponse.empty_resp 200 ≠
        WebResponse.json_resp [("hub.challenge", PyVal.str "")]
    ∧ webhook_post (.ok (PyVal.list [])) [] =
        (WebResponse.unhandled "AttributeError", [])
    ∧ WebResponse.unhandled "AttributeError" ≠ WebResponse.empty_resp 200 :=
  ⟨rfl, fun h => WebResponse.noConfusion h, rfl, fun h => WebResponse.noConfusion h⟩

/-- C10 amended: a GET carrying a non-empty hub.challenge is answered
with the JSON echo; a GET without it, or with an empty value, gets an
empty 200; a POST whose body is a well-formed JSON object is always
answered 200 regardless of owner match, with at most one coordinator
refreshed and only one whose unique id matches the owner id (an
unmatched id is dropped, never broadcast); a POST with malformed JSON is
answered 400; a non-object JSON body raises an unhandled error. -/
theorem C10_amended_webhook_endpoint :
    (∀ (q : List (String × String)) (c : String),
      strGet q "hub.challenge" = some c → c ≠ "" →
      webhook_get q = WebResponse.json_resp [("hub.challenge", PyVal.str c)])
    ∧ (∀ q : List (String × String), strGet q "hub.challenge" = Option.none →
        webhook_get q = WebResponse.empty_resp 200)
    ∧ (∀ q : List (String × String), strGet q "hub.challenge" = some "" →
        webhook_get q = WebResponse.empty_resp 200)
    ∧ (∀ (d : List (String × PyVal)) (entries : List (String × String)),
        (webhook_post (.ok (PyVal.dict d)) entries).1 = WebResponse.empty_resp 200)
    ∧ (∀ entries : List (String × String),
        webhook_post (.error ()) entries = (WebResponse.empty_resp 400, []))
    ∧ (∀ (d : List (String × PyVal)) (entries : List (String × String)),
        (webhook_post (.ok (PyVal.dict d)) entries).2.length ≤ 1)
    ∧ (∀ (d : List (String × PyVal)) (entries : List (String × String))
        (t : String), t ∈ (webhook_post (.ok (PyVal.dict d)) entries).2 →
        ∃ e ∈ entries, e.2 = t ∧ e.1 = pyStr (pyGet d "owner_id")) := by
  refine ⟨?_, ?_, ?_, ?_, fun _ => rfl, ?_, ?_⟩
  · intro q c hc hne
    simp [webhook_get, hc, hne]
  · intro q hq
    simp [webhook_get, hq]
  · intro q hq
    simp [webhook_get, hq]
  · intro d entries
    simp only [webhook_post]
    by_cases ho : pyTruthy (pyGet d "owner_id")
    · simp only [ho, Bool.not_true, Bool.false_eq_true, if_false]
      cases hf : entries.find? (fun e => e.1 == pyStr (pyGet d "owner_id")) <;> simp [hf]
    · simp [ho]
  · intro d entries
    simp only [webhook_post]
    by_cases ho : pyTruthy (pyGet d "owner_id")
    · simp only [ho, Bool.not_true, Bool.false_eq_true, if_false]
      cases hf : entries.find? (fun e => e.1 == pyStr (pyGet d "owner_id")) <;> simp [hf]
    · simp [ho]
  · intro d entries t ht
    simp only [webhook_post] at ht
    by_cases ho : pyTruthy (pyGet d "owner_id")
    · simp only [ho, Bool.not_true, Bool.false_eq_true, if_false] at ht
      cases hf : entries.find? (fun e => e.1 == pyStr (pyGet d "owner_id")) with
      | none =>
        rw [hf] at ht
        simp at ht
      | some e =>
        rw [hf] at ht
        simp at ht
        refine ⟨e, List.mem_of_find?_eq_some hf, ht.symm, ?_⟩
        have := List.find?_some hf
        simpa using this
    · simp [ho] at ht

/-- Witness for C10 amended at a concrete challenge and a concrete
matched POST. -/
theorem C10_witness :
    webhook_get [("hub.challenge", "token-1")] =
      WebResponse.json_resp [("hub.challenge", PyVal.str "token-1")]
    ∧ (webhook_post (.ok (PyVal.dict [("owner_id", PyVal.str "42")]))
        [("42", "entry-a")]).1 = WebResponse.empty_resp 200 :=
  ⟨C10_amended_webhook_endpoint.1 [("hub.challenge", "token-1")] "token-1" rfl (by decide),
   C10_amended_webhook_endpoint.2.2.2.1 [("owner_id", PyVal.str "42")] [("42", "entry-a")]⟩

/-- C2: in the remote-subscription phase of the webhook reconciler, a
single stale remote subscription is deleted and exactly one create call
is issued with the returned id persisted; an already-matching list with
no stale entries triggers zero create and zero delete calls; a create is
never issued when some listed subscription already matches (no
duplicates) and at most one create happens per run; every delete call
targets a stale subscription; a 404 on delete is treated as already
satisfied and other delete failures are logged and skipped, never
changing the rest of the run. -/
theorem C2_reconciler_behaviour (callback_url : String)
    (subscriptions : List Subscription) (delete_outcome : Nat → DeleteOutcome)
    (create_outcome : Option Nat) :
    (∀ sub : Subscription, sub.callback_url ≠ callback_url → ∀ k : Nat,
      (renew_webhook_subscription callback_url [sub] delete_outcome (some k)).delete_calls
          = [sub.id]
      ∧ (renew_webhook_subscription callback_url [sub] delete_outcome (some k)).create_calls
          = [callback_url]
      ∧ (renew_webhook_subscription callback_url [sub] delete_outcome (some k)).persisted_id
          = some k)
    ∧ ((∃ s ∈ subscriptions, s.callback_url = callback_url) →
        (∀ s ∈ subscriptions, s.callback_url = callback_url) →
        (renew_webhook_subscription callback_url subscriptions delete_outcome
            create_outcome).delete_calls = []
        ∧ (renew_webhook_subscription callback_url subscriptions delete_outcome
            create_outcome).create_calls = [])
    ∧ ((∃ s ∈ subscriptions, s.callback_url = callback_url) →
        (renew_webhook_subscription callback_url subscriptions delete_outcome
            create_outcome).create_calls = [])
    ∧ (renew_webhook_subscription callback_url subscriptions delete_outcome
        create_outcome).create_calls.length ≤ 1
    ∧ (∀ i ∈ (renew_webhook_subscription callback_url subscriptions delete_outcome
        create_outcome).delete_calls,
        ∃ s ∈ subscriptions, s.id = i ∧ s.callback_url ≠ callback_url)
    ∧ (∀ s ∈ subscriptions, s.callback_url ≠ callback_url →
        s.id ∈ (renew_webhook_subscription callback_url subscriptions delete_outcome
          create_outcome).delete_calls
        ∧ (delete_outcome s.id = .resp_error 404 →
            s.id ∈ (renew_webhook_subscription callback_url subscriptions delete_outcome
              create_outcome).delete_already_gone)
        ∧ (∀ code : Nat, code ≠ 404 → delete_outcome s.id = .resp_error code →
            s.id ∈ (renew_webhook_subscription callback_url subscriptions delete_outcome
              create_outcome).delete_warned)
        ∧ (delete_outcome s.id = .conn_error →
            s.id ∈ (renew_webhook_subscription callback_url subscriptions delete_outcome
              create_outcome).delete_warned))
    ∧ (∀ other_outcome : Nat → DeleteOutcome,
        (renew_webhook_subscription callback_url subscriptions other_outcome
          create_outcome).delete_calls =
          (renew_webhook_subscription callback_url subscriptions delete_outcome
            create_outcome).delete_calls
        ∧ (renew_webhook_subscription callback_url subscriptions other_outcome
            create_outcome).create_calls =
          (renew_webhook_subscription callback_url subscriptions delete_outcome
            create_outcome).create_calls
        ∧ (renew_webhook_subscription callback_url subscriptions other_outcome
            create_outcome).persisted_id =
          (renew_webhook_subscription callback_url subscriptions delete_outcome
            create_outcome).persisted_id) := by
  refine ⟨?_, ?_, ?_, ?_, ?_, ?_, ?_⟩
  · intro sub hne k
    have hany : ([sub].any (fun s => decide (s.callback_url = callback_url))) = false := by
      simp [hne]
    refine ⟨?_, ?_, ?_⟩ <;> simp [renew_webhook_subscription, hne, hany]
  · intro hex hall
    have hany : (subscriptions.any (fun s => decide (s.callback_url = callback_url))) = true := by
      rcases hex with ⟨s, hs, hseq⟩
      exact List.any_eq_true.mpr ⟨s, hs, by simp [hseq]⟩
    constructor
    · simp only [renew_webhook_subscription, hany, if_true]
      simp only [List.map_eq_nil_iff, List.filter_eq_nil_iff, decide_not,
        Bool.not_eq_true', decide_eq_false_iff_not, not_not]
      exact hall
    · simp [renew_webhook_subscription, hany]
  · intro hex
    have hany : (subscriptions.any (fun s => decide (s.callback_url = callback_url))) = true := by
      rcases hex with ⟨s, hs, hseq⟩
      exact List.any_eq_true.mpr ⟨s, hs, by simp [hseq]⟩
    simp [renew_webhook_subscription, hany]
  · by_cases hany : (subscriptions.any (fun s => decide (s.callback_url = callback_url))) = true
    · simp [renew_webhook_subscription, hany]
    · simp [renew_webhook_subscription, hany]
  · intro i hi
    by_cases hany : (subscriptions.any (fun s => decide (s.callback_url = callback_url))) = true
    all_goals
      simp only [renew_webhook_subscription, hany] at hi
      simp only [Bool.false_eq_true, if_false, if_true, List.mem_map,
        List.mem_filter] at hi
      rcases hi with ⟨s, ⟨hs, hsne⟩, hid⟩
      exact ⟨s, hs, hid, by simpa using hsne⟩
  · intro s hs hne
    have hmemstale : s ∈ subscriptions.filter
        (fun t => decide (t.callback_url ≠ callback_url)) :=
      List.mem_filter.mpr ⟨hs, by simp [hne]⟩
    refine ⟨?_, ?_, ?_, ?_⟩
    · by_cases hany : (subscriptions.any (fun t => decide (t.callback_url = callback_url))) = true
      all_goals
        simp only [renew_webhook_subscription, hany]
        simp only [Bool.false_eq_true, if_false, if_true]
        exact List.mem_map.mpr ⟨s, hmemstale, rfl⟩
    · intro h404
      have hmem : s ∈ (subscriptions.filter
          (fun t => decide (t.callback_url ≠ callback_url))).filter
          (fun t => decide (delete_outcome t.id = .resp_error 404)) :=
        List.mem_filter.mpr ⟨hmemstale, by simp [h404]⟩
      by_cases hany : (subscriptions.any (fun t => decide (t.callback_url = callback_url))) = true
      all_goals
        simp only [renew_webhook_subscription, hany]
        simp only [Bool.false_eq_true, if_false, if_true]
        exact List.mem_map.mpr ⟨s, hmem, rfl⟩
    · intro code hcode houtcome
      have hmem : s ∈ (subscriptions.filter
          (fun t => decide (t.callback_url ≠ callback_url))).filter
          (fun t => match delete_outcome t.id with
            | .ok => false
            | .resp_error st2 => st2 ≠ 404
            | .conn_error => true) :=
        List.mem_filter.mpr ⟨hmemstale, by simp [houtcome, hcode]⟩
      by_cases hany : (subscriptions.any (fun t => decide (t.callback_url = callback_url))) = true
      all_goals
        simp only [renew_webhook_subscription, hany]
        simp only [Bool.false_eq_true, if_false, if_true]
        exact List.mem_map.mpr ⟨s, hmem, rfl⟩
    · intro hconn
      have hmem : s ∈ (subscriptions.filter
          (fun t => decide (t.callback_url ≠ callback_url))).filter
          (fun t => match delete_outcome t.id with
            | .ok => false
            | .resp_error st2 => st2 ≠ 404
            | .conn_error => true) :=
        List.mem_filter.mpr ⟨hmemstale, by simp [hconn]⟩
      by_cases hany : (subscriptions.any (fun t => decide (t.callback_url = callback_url))) = true
      all_goals
        simp only [renew_webhook_subscription, hany]
        simp only [Bool.false_eq_true, if_false, if_true]
        exact List.mem_map.mpr ⟨s, hmem, rfl⟩
  · intro other_outcome
    by_cases hany : (subscriptions.any (fun s => decide (s.callback_url = callback_url))) = true
    · refine ⟨?_, ?_, ?_⟩ <;> simp [renew_webhook_subscription, hany]
    · refine ⟨?_, ?_, ?_⟩ <;> simp [renew_webhook_subscription, hany]

/-- Witness for C2 at one concrete stale subscription with a successful
create, and one concrete already-matching subscription. -/
theorem C2_witness :
    (renew_webhook_subscription "https://ha.example/api/strava/webhook"
        [⟨10, "https://old.example/cb"⟩] (fun _ => .ok) (some 77)).delete_calls = [10]
    ∧ (renew_webhook_subscription "https://ha.example/api/strava/webhook"
        [⟨10, "https://old.example/cb"⟩] (fun _ => .ok) (some 77)).create_calls =
        ["https://ha.example/api/strava/webhook"]
    ∧ (renew_webhook_subscription "https://ha.example/api/strava/webhook"
        [⟨10, "https://old.example/cb"⟩] (fun _ => .ok) (some 77)).persisted_id = some 77
    ∧ (renew_webhook_subscription "https://ha.example/api/strava/webhook"
        [⟨11, "https://ha.example/api/strava/webhook"⟩] (fun _ => .ok)
          (some 78)).delete_calls = []
    ∧ (renew_webhook_subscription "https://ha.example/api/strava/webhook"
        [⟨11, "https://ha.example/api/strava/webhook"⟩] (fun _ => .ok)
          (some 78)).create_calls = [] := by
  have h1 := (C2_reconciler_behaviour "https://ha.example/api/strava/webhook"
    [⟨10, "https://old.example/cb"⟩] (fun _ => .ok) (some 77)).1
    ⟨10, "https://old.example/cb"⟩ (by decide) 77
  have h2 := (C2_reconciler_behaviour "https://ha.example/api/strava/webhook"
    [⟨11, "https://ha.example/api/strava/webhook"⟩] (fun _ => .ok) (some 78)).2.1
    ⟨⟨11, "https://ha.example/api/strava/webhook"⟩, by decide, by decide⟩
    (by
      intro s hs
      have : s = ⟨11, "https://ha.example/api/strava/webhook"⟩ := by
        simpa using hs
      rw [this])
  exact ⟨h1.1, h1.2.1, h1.2.2, h2.1, h2.2⟩

theorem dictInsert_map_fst (k : String) (v : ImgEntry) (d : List (String × ImgEntry)) :
    (dictInsert k v d).map Prod.fst =
      if k ∈ d.map Prod.fst then d.map Prod.fst else d.map Prod.fst ++ [k] := by
  induction d with
  | nil => simp [dictInsert]
  | cons p rest ih =>
    by_cases hk : p.1 = k
    · simp [dictInsert, hk]
    · simp only [dictInsert, if_neg hk, List.map_cons, ih]
      by_cases hm : k ∈ rest.map Prod.fst
      · simp [hm, Ne.symm hk]
      · simp [hm, Ne.symm hk]

theorem dictInsert_length_ge (k : String) (v : ImgEntry) (d : List (String × ImgEntry)) :
    d.length ≤ (dictInsert k v d).length := by
  have h4 := congrArg List.length (dictInsert_map_fst k v d)
  by_cases hm : k ∈ d.map Prod.fst
  · rw [if_pos hm] at h4
    simp only [List.length_map] at h4
    omega
  · rw [if_neg hm] at h4
    simp only [List.length_map, List.length_append, List.length_singleton] at h4
    omega

theorem dictInsert_mem (k : String) (v : ImgEntry) (d : List (String × ImgEntry))
    (p : String × ImgEntry) : p ∈ dictInsert k v d → p = (k, v) ∨ p ∈ d := by
  induction d with
  | nil =>
    intro hp
    simp [dictInsert] at hp
    exact Or.inl hp
  | cons q rest ih =>
    intro hp
    by_cases hq : q.1 = k
    · simp only [dictInsert, if_pos hq] at hp
      rcases List.mem_cons.mp hp with heq | hmem
      · left
        rw [heq, hq]
      · right
        exact List.mem_cons_of_mem _ hmem
    · simp only [dictInsert, if_neg hq] at hp
      rcases List.mem_cons.mp hp with heq | hmem
      · right
        rw [heq]
        exact List.mem_cons_self _ _
      · rcases ih hmem with h1 | h2
        · exact Or.inl h1
        · exact Or.inr (List.mem_cons_of_mem _ h2)

theorem dictInsert_nodup_fst (k : String) (v : ImgEntry) (d : List (String × ImgEntry))
    (hd : (d.map Prod.fst).Nodup) : ((dictInsert k v d).map Prod.fst).Nodup := by
  rw [dictInsert_map_fst]
  by_cases hm : k ∈ d.map Prod.fst
  · rw [if_pos hm]
    exact hd
  · rw [if_neg hm]
    refine List.Nodup.append hd (List.nodup_singleton k) ?_
    intro a ha hb
    simp only [List.mem_singleton] at hb
    subst hb
    exact hm ha

theorem merge_step_mem (h : String → String) (recent : List Int)
    (d : List (String × ImgEntry)) (img : ImgEntry) (p : String × ImgEntry) :
    p ∈ merge_step h recent d img →
      p ∈ d ∨ (p.2 = img ∧ (∃ a : Int, img.activity_id = some a ∧ a ∈ recent)
        ∧ p.1 = h img.url) := by
  rcases himg : img.activity_id with _ | aid
  · simp only [merge_step, himg]
    exact fun hp => Or.inl hp
  · simp only [merge_step, himg]
    by_cases hc : (recent.contains aid) = true
    · rw [if_pos hc]
      intro hp
      rcases dictInsert_mem _ _ _ _ hp with heq | hmem
      · right
        rw [heq]
        exact ⟨rfl, ⟨aid, rfl, List.elem_iff.mp hc⟩, rfl⟩
      · exact Or.inl hmem
    · rw [if_neg hc]
      exact fun hp => Or.inl hp

theorem merge_step_length_ge (h : String → String) (recent : List Int)
    (d : List (String × ImgEntry)) (img : ImgEntry) :
    d.length ≤ (merge_step h recent d img).length := by
  rcases himg : img.activity_id with _ | aid
  · simp [merge_step, himg]
  · simp only [merge_step, himg]
    by_cases hc : (recent.contains aid) = true
    · rw [if_pos hc]
      exact dictInsert_length_ge _ _ _
    · rw [if_neg hc]

theorem merge_step_nodup_fst (h : String → String) (recent : List Int)
    (d : List (String × ImgEntry)) (img : ImgEntry)
    (hd : (d.map Prod.fst).Nodup) : ((merge_step h recent d img).map Prod.fst).Nodup := by
  rcases himg : img.activity_id with _ | aid
  · simpa [merge_step, himg] using hd
  · simp only [merge_step, himg]
    by_cases hc : (recent.contains aid) = true
    · rw [if_pos hc]
      exact dictInsert_nodup_fst _ _ _ hd
    · rw [if_neg hc]
      exact hd

theorem foldl_merge_mem (h : String → String) (recent : List Int) :
    ∀ (imgs : List ImgEntry) (d : List (String × ImgEntry)) (p : String × ImgEntry),
      p ∈ imgs.foldl (merge_step h recent) d →
      p ∈ d ∨ (p.2 ∈ imgs ∧ (∃ a : Int, p.2.activity_id = some a ∧ a ∈ recent)
        ∧ p.1 = h p.2.url) := by
  intro imgs
  induction imgs with
  | nil =>
    intro d p hp
    exact Or.inl hp
  | cons img rest ih =>
    intro d p hp
    rcases ih (merge_step h recent d img) p hp with hmem | ⟨hin, hrec, hkey⟩
    · rcases merge_step_mem h recent d img p hmem with h1 | ⟨himg, hrec2, hkey2⟩
      · exact Or.inl h1
      · refine Or.inr ⟨?_, ?_, ?_⟩
        · rw [himg]
          exact List.mem_cons_self _ _
        · rw [himg]
          exact hrec2
        · rw [himg]
          exact hkey2
    · exact Or.inr ⟨List.mem_cons_of_mem _ hin, hrec, hkey⟩

theorem foldl_merge_length_ge (h : String → String) (recent : List Int) :
    ∀ (imgs : List ImgEntry) (d : List (String × ImgEntry)),
      d.length ≤ (imgs.foldl (merge_step h recent) d).length := by
  intro imgs
  induction imgs with
  | nil =>
    intro d
    exact Nat.le_refl _
  | cons img rest ih =>
    intro d
    exact Nat.le_trans (merge_step_length_ge h recent d img) (ih _)

theorem foldl_merge_nodup_fst (h : String → String) (recent : List Int) :
    ∀ (imgs : List ImgEntry) (d : List (String × ImgEntry)),
      (d.map Prod.fst).Nodup → ((imgs.foldl (merge_step h recent) d).map Prod.fst).Nodup := by
  intro imgs
  induction imgs with
  | nil =>
    intro d hd
    exact hd
  | cons img rest ih =>
    intro d hd
    exact ih _ (merge_step_nodup_fst h recent d img hd)

theorem takeLast_sublist {α : Type} (n : Nat) (l : List α) :
    (takeLast n l).Sublist l := by
  unfold takeLast
  split
  · exact List.Sublist.refl _
  · exact List.drop_sublist _ _

theorem takeLast_length {α : Type} (n : Nat) (l : List α) :
    (takeLast n l).length = if n = 0 then l.length else min n l.length := by
  unfold takeLast
  split
  · simp
  · rw [List.length_drop]
    omega

theorem cam_inv_of_reachable (h : String → String) (M N : Nat) (s : UrlCamState)
    (hr : ReachableCam h M N s) : CamInv N s := by
  induction hr with
  | init => exact ⟨fun _ => by simp, Or.inr ⟨rfl, rfl⟩⟩
  | restart s2 _ ih =>
    refine ⟨fun hN => ?_, ?_⟩
    · simpa [setup_pickle_urls, store_pickle_urls] using ih.1 hN
    · rcases heq : s2.urls with _ | ⟨q, rest⟩
      · exact Or.inr ⟨by simp [setup_pickle_urls, store_pickle_urls, heq], rfl⟩
      · left
        simp [setup_pickle_urls, store_pickle_urls, heq]
  | rotate s2 _ ih =>
    by_cases he : s2.urls.isEmpty = true
    · simpa [rotate_img, he] using ih
    · have hne : s2.urls ≠ [] := by
        simpa using he
      have hpos : 0 < s2.urls.length := List.length_pos.mpr hne
      refine ⟨fun hN => ?_, Or.inl ?_⟩
      · simpa [rotate_img, he] using ih.1 hN
      · simpa [rotate_img, he] using Nat.mod_lt _ hpos
  | update s2 acts imgs _ ih =>
    by_cases he : imgs.isEmpty = true
    · simpa [update_urls, he] using ih
    · have hu : (update_urls h M N acts imgs s2).urls =
          takeLast N (List.insertionSort dateRel (update_merged h M acts imgs s2.urls)) := by
        simp [update_urls, he]
      have hidx : (update_urls h M N acts imgs s2).url_index = s2.url_index := by
        simp [update_urls, he]
      have hmerged : s2.urls.length ≤ (update_merged h M acts imgs s2.urls).length :=
        foldl_merge_length_ge h _ imgs s2.urls
      have hsort : (List.insertionSort dateRel (update_merged h M acts imgs s2.urls)).length
          = (update_merged h M acts imgs s2.urls).length :=
        List.length_insertionSort _ _
      have hL := takeLast_length N (List.insertionSort dateRel (update_merged h M acts imgs s2.urls))
      refine ⟨fun hN => ?_, ?_⟩
      · rw [hu, hL, if_neg (by omega)]
        omega
      · rcases ih.2 with hlt | ⟨hemp, hzero⟩
        · left
          rw [hu, hidx]
          by_cases hN0 : N = 0
          · rw [hL, if_pos hN0]
            omega
          · have hbound := ih.1 (by omega)
            rw [hL, if_neg hN0]
            omega
        · rcases hcase : (update_urls h M N acts imgs s2).urls with _ | ⟨x, xs⟩
          · exact Or.inr ⟨rfl, by rw [hidx, hzero]⟩
          · left
            rw [hidx, hzero]
            simp

/-- C4: for every reachable state of the image rotation cache, reading
the current image returns the fixed fallback image URL when the URL
collection is empty, and otherwise successfully returns the entry at the
current rotation index, which is always within bounds; rotate advances
the index modulo the collection size and is a no-op on an empty
collection. -/
theorem C4_rotation_safety (h : String → String) (M N : Nat) (s : UrlCamState)
    (hr : ReachableCam h M N s) :
    (s.urls = [] → cam_state s = some DEFAULT_IMAGE_URL)
    ∧ (s.urls ≠ [] → s.url_index < s.urls.length
        ∧ ∃ u : String, cam_state s = some u
          ∧ (s.urls.map (fun p => p.2.url))[s.url_index]? = some u)
    ∧ (s.urls = [] → rotate_img s = s)
    ∧ (s.urls ≠ [] → (rotate_img s).urls = s.urls
        ∧ (rotate_img s).url_index = (s.url_index + 1) % s.urls.length) := by
  have hinv := cam_inv_of_reachable h M N s hr
  refine ⟨?_, ?_, ?_, ?_⟩
  · intro he
    simp [cam_state, he]
  · intro hne
    have hidx : s.url_index < s.urls.length := by
      rcases hinv.2 with h1 | ⟨h2, _⟩
      · exact h1
      · exact absurd h2 hne
    have he : s.urls.isEmpty = false := by
      simpa using hne
    have hlt : s.url_index < (s.urls.map (fun p => p.2.url)).length := by
      simpa using hidx
    refine ⟨hidx, (s.urls.map (fun p => p.2.url))[s.url_index], ?_, ?_⟩
    · simp only [cam_state, he, Bool.false_eq_true, if_false]
      exact List.getElem?_eq_getElem hlt
    · exact List.getElem?_eq_getElem hlt
  · intro he
    simp [rotate_img, he]
  · intro hne
    have he : s.urls.isEmpty = false := by
      simpa using hne
    exact ⟨by simp [rotate_img, he], by simp [rotate_img, he]⟩

/-- Witness for C4 at the initial empty state. -/
theorem C4_witness :
    cam_state { urls := [], url_index := 0 } = some DEFAULT_IMAGE_URL
    ∧ rotate_img { urls := [], url_index := 0 } = { urls := [], url_index := 0 } :=
  ⟨(C4_rotation_safety id 30 10 { urls := [], url_index := 0 } ReachableCam.init).1 rfl,
   (C4_rotation_safety id 30 10 { urls := [], url_index := 0 } ReachableCam.init).2.2.1 rfl⟩

/-- C3 counterexample: an update never purges entries already in the
collection whose activity is no longer among the most-recent M; with a
prior entry for activity 99 and a current snapshot whose only recent
activity is 1, the retained collection still contains the activity-99
entry, so it does not contain only entries whose activityId is among the
most-recent M activities. -/
theorem C3_counterexample :
    ("https://old.img/1.jpg", (⟨"https://old.img/1.jpg", some 99, "2023-01-01"⟩ : ImgEntry)) ∈
      (update_urls id 30 10 [⟨1, "2024-01-01"⟩]
        [⟨"https://new.img/2.jpg", some 1, "2024-01-02"⟩]
        ⟨[("https://old.img/1.jpg", ⟨"https://old.img/1.jpg", some 99, "2023-01-01"⟩)], 0⟩).urls
    ∧ recent_activity_ids 30 [⟨1, "2024-01-01"⟩] = [1]
    ∧ (99 : Int) ∉ recent_activity_ids 30 [⟨1, "2024-01-01"⟩] := by
  decide

/-- C3 amended: after every image-cache update with a non-empty image
list, every retained entry either was already in the collection before
the update or is an incoming image entry whose activityId is among the
most-recent M activities by start date; the collection is deduplicated
by the content hash of the URL (distinct retained entries have distinct
keys and distinct URLs), holds at most N entries, is ordered by date
ascending and keeps the most recent entries of the merged collection;
persisting and reloading reproduces the identical retained collection. -/
theorem C3_amended_update_retention (h : String → String) (M N : Nat)
    (acts : List Activity) (imgs : List ImgEntry) (s : UrlCamState)
    (hN : 0 < N) (himgs : imgs ≠ [])
    (hkeys : ∀ p ∈ s.urls, p.1 = h p.2.url)
    (hnodup : (s.urls.map Prod.fst).Nodup) :
    (∀ p ∈ (update_urls h M N acts imgs s).urls, p ∈ s.urls ∨
      (p.2 ∈ imgs ∧ (∃ a : Int, p.2.activity_id = some a ∧
        a ∈ recent_activity_ids M acts) ∧ p.1 = h p.2.url))
    ∧ ((update_urls h M N acts imgs s).urls.map Prod.fst).Nodup
    ∧ (∀ p ∈ (update_urls h M N acts imgs s).urls, p.1 = h p.2.url)
    ∧ (∀ p ∈ (update_urls h M N acts imgs s).urls,
        ∀ q ∈ (update_urls h M N acts imgs s).urls, p ≠ q → p.2.url ≠ q.2.url)
    ∧ (update_urls h M N acts imgs s).urls.length ≤ N
    ∧ List.Pairwise dateRel (update_urls h M N acts imgs s).urls
    ∧ (∀ e ∈ List.insertionSort dateRel (update_merged h M acts imgs s.urls),
        e ∉ (update_urls h M N acts imgs s).urls →
        ∀ p ∈ (update_urls h M N acts imgs s).urls, dateRel e p)
    ∧ (setup_pickle_urls (some (store_pickle_urls (update_urls h M N acts imgs s)))).urls
        = (update_urls h M N acts imgs s).urls := by
  have he : imgs.isEmpty = false := by
    simpa using himgs
  have hu : (update_urls h M N acts imgs s).urls =
      takeLast N (List.insertionSort dateRel (update_merged h M acts imgs s.urls)) := by
    simp [update_urls, he]
  have hperm : List.Perm (List.insertionSort dateRel (update_merged h M acts imgs s.urls))
      (update_merged h M acts imgs s.urls) :=
    List.perm_insertionSort _ _
  have hmem : ∀ p ∈ (update_urls h M N acts imgs s).urls, p ∈ s.urls ∨
      (p.2 ∈ imgs ∧ (∃ a : Int, p.2.activity_id = some a ∧
        a ∈ recent_activity_ids M acts) ∧ p.1 = h p.2.url) := by
    intro p hp
    rw [hu] at hp
    have hp2 : p ∈ List.insertionSort dateRel (update_merged h M acts imgs s.urls) :=
      (takeLast_sublist _ _).subset hp
    have hp3 : p ∈ update_merged h M acts imgs s.urls := hperm.subset hp2
    exact foldl_merge_mem h _ imgs s.urls p hp3
  have hnodup2 : ((update_urls h M N acts imgs s).urls.map Prod.fst).Nodup := by
    rw [hu]
    have h1 : ((update_merged h M acts imgs s.urls).map Prod.fst).Nodup :=
      foldl_merge_nodup_fst h _ imgs s.urls hnodup
    have h2 : ((List.insertionSort dateRel (update_merged h M acts imgs s.urls)).map
        Prod.fst).Nodup :=
      ((hperm.map Prod.fst).nodup_iff).mpr h1
    exact h2.sublist ((takeLast_sublist _ _).map Prod.fst)
  have hkey2 : ∀ p ∈ (update_urls h M N acts imgs s).urls, p.1 = h p.2.url := by
    intro p hp
    rcases hmem p hp with h1 | ⟨_, _, h2⟩
    · exact hkeys p h1
    · exact h2
  refine ⟨hmem, hnodup2, hkey2, ?_, ?_, ?_, ?_, rfl⟩
  · intro p hp q hq hpq hurl
    apply hpq
    refine List.inj_on_of_nodup_map hnodup2 hp hq ?_
    rw [hkey2 p hp, hkey2 q hq, hurl]
  · rw [hu, takeLast_length, if_neg (by omega)]
    exact Nat.min_le_left _ _
  · rw [hu]
    exact (List.sorted_insertionSort dateRel _).sublist (takeLast_sublist _ _)
  · intro e hesort henot p hp
    rw [hu] at henot hp
    have htake : takeLast N (List.insertionSort dateRel (update_merged h M acts imgs s.urls)) =
        (List.insertionSort dateRel (update_merged h M acts imgs s.urls)).drop
          ((List.insertionSort dateRel (update_merged h M acts imgs s.urls)).length - N) := by
      unfold takeLast
      rw [if_neg (by omega)]
    have hpw : List.Pairwise dateRel
        ((List.insertionSort dateRel (update_merged h M acts imgs s.urls)).take
            ((List.insertionSort dateRel (update_merged h M acts imgs s.urls)).length - N) ++
          (List.insertionSort dateRel (update_merged h M acts imgs s.urls)).drop
            ((List.insertionSort dateRel (update_merged h M acts imgs s.urls)).length - N)) := by
      rw [List.take_append_drop]
      exact List.sorted_insertionSort dateRel _
    have hesplit : e ∈ (List.insertionSort dateRel (update_merged h M acts imgs s.urls)).take
        ((List.insertionSort dateRel (update_merged h M acts imgs s.urls)).length - N) := by
      have := hesort
      rw [← List.take_append_drop
        ((List.insertionSort dateRel (update_merged h M acts imgs s.urls)).length - N)
        (List.insertionSort dateRel (update_merged h M acts imgs s.urls))] at this
      rcases List.mem_append.mp this with h1 | h2
      · exact h1
      · rw [htake] at henot
        exact absurd h2 henot
    rw [htake] at hp
    exact (List.pairwise_append.mp hpw).2.2 e hesplit p hp

/-- Witness for C3 amended at a concrete snapshot from the empty
state. -/
theorem C3_witness :
    (update_urls id 30 10 [⟨1, "2024-01-01"⟩]
      [⟨"https://new.img/2.jpg", some 1, "2024-01-02"⟩] ⟨[], 0⟩).urls.length ≤ 10
    ∧ (setup_pickle_urls (some (store_pickle_urls (update_urls id 30 10 [⟨1, "2024-01-01"⟩]
        [⟨"https://new.img/2.jpg", some 1, "2024-01-02"⟩] ⟨[], 0⟩)))).urls =
      (update_urls id 30 10 [⟨1, "2024-01-01"⟩]
        [⟨"https://new.img/2.jpg", some 1, "2024-01-02"⟩] ⟨[], 0⟩).urls :=
  ⟨(C3_amended_update_retention id 30 10 [⟨1, "2024-01-01"⟩]
      [⟨"https://new.img/2.jpg", some 1, "2024-01-02"⟩] ⟨[], 0⟩
      (by decide) (by decide) (by simp) (by simp)).2.2.2.2.1,
   (C3_amended_update_retention id 30 10 [⟨1, "2024-01-01"⟩]
      [⟨"https://new.img/2.jpg", some 1, "2024-01-02"⟩] ⟨[], 0⟩
      (by decide) (by decide) (by simp) (by simp)).2.2.2.2.2.2.2⟩

end StravaConnect
